import Mathlib

/-!
Verification of the emergency ambulance dispatch service.

This development shallowly embeds the Python sources of the repository:
src/emergency_service.py (the dispatch orchestrator), src/app.py (the API
boundary), src/config.py, src/data_collector.py and src/data_preprocessor.py.
Machine floats are modelled as rationals, Python dictionaries as structures
with Option-valued fields (a field is none when the key is absent), and
raisable Python code as Except-valued functions.  Components of the
repository that are imported by the orchestrator but whose files are not
part of the sources here (models/route_optimizer.py, models/traffic_predictor.py,
utils/distance_calculator.py) are abstracted as function-valued fields of a
ServiceEnv record; where a concrete instance is needed it is modelled from
the specification and marked as such.
-/

/-- Python exceptions that the embedded code can raise. -/
inductive PyErr where
  | keyError (key : String)
  | indexError
  | valueError (msg : String)
  | zeroDivisionError
  | typeError (msg : String)
  | other (msg : String)
deriving DecidableEq, Repr

/-- Python dictionary subscription d[key]: the value when the key is present,
a KeyError otherwise. -/
def dict_get {α : Type} (v : Option α) (key : String) : Except PyErr α :=
  match v with
  | some x => Except.ok x
  | none => Except.error (PyErr.keyError key)

/-- Weather feature dictionary produced by DataCollector.get_weather_data and
DataCollector._get_default_weather (src/data_collector.py). -/
structure WeatherFeatures where
  temperature : ℚ
  humidity : ℚ
  pressure : ℚ
  visibility : ℚ
  wind_speed : ℚ
  wind_direction : ℚ
  weather_condition : String
  weather_description : String
  is_raining : ℕ
  is_snowing : ℕ
  rain_intensity : ℚ
  timestamp : ℚ
  temp_trend : ℚ
  max_temp_6h : ℚ
  rain_forecast_6h : Bool
deriving DecidableEq, Repr

/-- DataCollector._get_default_weather (src/data_collector.py lines 189-207):
the documented default weather values returned when the weather API fails.
The timestamp field is datetime.now().timestamp(), threaded as a parameter. -/
def _get_default_weather (nowTs : ℚ) : WeatherFeatures :=
  { temperature := 25
    humidity := 60
    pressure := 1013
    visibility := 10
    wind_speed := 3
    wind_direction := 0
    weather_condition := "Clear"
    weather_description := "clear sky"
    is_raining := 0
    is_snowing := 0
    rain_intensity := 0
    timestamp := nowTs
    temp_trend := 0
    max_temp_6h := 25
    rain_forecast_6h := false }

/-- Route feature dictionary of DataCollector._extract_route_features
(src/data_collector.py).  The fields are carried but not consumed by any
claim; the dictionary only travels inside the collected-data snapshot. -/
structure TrafficLeg where
  distance_km : ℚ
  duration_traffic_min : ℚ
  duration_normal_min : ℚ
  traffic_delay_min : ℚ
  traffic_ratio : ℚ
  polyline : String
  summary : String
  timestamp : ℚ
deriving DecidableEq, Repr

/-- Contextual feature dictionary of DataCollector.get_contextual_data
(src/data_collector.py lines 158-173). -/
structure ContextualFeatures where
  hour : ℕ
  day_of_week : ℕ
  is_weekend : ℕ
  is_rush_hour : ℕ
  is_night : ℕ
  month : ℕ
  is_holiday : ℕ
  is_school_time : ℕ
deriving DecidableEq, Repr

/-- The parts of datetime.now() that src/data_collector.py reads. -/
structure ClockTime where
  hour : ℕ
  weekday : ℕ
  month : ℕ
deriving DecidableEq, Repr

/-- DataCollector._check_holiday (src/data_collector.py lines 175-179):
always returns 0. -/
def _check_holiday (_clock : ClockTime) : ℕ := 0

/-- DataCollector._check_school_hours (src/data_collector.py lines 181-187). -/
def _check_school_hours (clock : ClockTime) : ℕ :=
  if 5 ≤ clock.weekday then 0
  else if 7 ≤ clock.hour ∧ clock.hour ≤ 17 then 1
  else 0

/-- DataCollector.get_contextual_data (src/data_collector.py lines 158-173). -/
def get_contextual_data (clock : ClockTime) : ContextualFeatures :=
  { hour := clock.hour
    day_of_week := clock.weekday
    is_weekend := if 5 ≤ clock.weekday then 1 else 0
    is_rush_hour := if (7 ≤ clock.hour ∧ clock.hour ≤ 10) ∨ (17 ≤ clock.hour ∧ clock.hour ≤ 20) then 1 else 0
    is_night := if 22 ≤ clock.hour ∨ clock.hour ≤ 6 then 1 else 0
    month := clock.month
    is_holiday := _check_holiday clock
    is_school_time := _check_school_hours clock }

/-- Traffic incident dictionary (src/data_collector.py lines 132-151). -/
structure Incident where
  type : String
  severity : String
  lat : ℚ
  lon : ℚ
  description : String
  start_time : ℚ
  estimated_duration : ℚ
deriving DecidableEq, Repr

/-- Geographic bounds dictionary, as in src/config.py CITY_BOUNDS and the
incident bounds computed in collect_all_data. -/
structure Bounds where
  north : ℚ
  south : ℚ
  east : ℚ
  west : ℚ
deriving DecidableEq, Repr

/-- DataCollector.get_realtime_incidents (src/data_collector.py lines 125-156):
returns the hard-coded mock incident list; start_time is
datetime.now().timestamp(), threaded as nowTs. -/
def get_realtime_incidents (nowTs : ℚ) (_bounds : Bounds) : List Incident :=
  [ { type := "accident"
      severity := "major"
      lat := 129716/10000
      lon := 775946/10000
      description := "Vehicle breakdown on outer ring road"
      start_time := nowTs
      estimated_duration := 45 },
    { type := "construction"
      severity := "moderate"
      lat := 129344/10000
      lon := 776101/10000
      description := "Road repair work"
      start_time := nowTs
      estimated_duration := 120 } ]

/-- Snapshot dictionary returned by DataCollector.collect_all_data
(src/data_collector.py lines 209-235). -/
structure CollectedData where
  weather : WeatherFeatures
  traffic : List TrafficLeg
  contextual : ContextualFeatures
  incidents : List Incident
  timestamp : ℚ
deriving DecidableEq, Repr

/-- Hospital current-status dictionary attached by the /api/hospitals endpoint
(src/app.py lines 128-134). -/
structure CurrentStatus where
  beds_available : ℕ
  emergency_queue : ℚ
  last_updated : String
deriving DecidableEq, Repr

/-- Hospital record (src/emergency_service.py lines 76-107).  The
current_status field models the key that src/app.py get_hospitals adds to the
shared dictionaries in place; it is absent (none) in the loaded database. -/
structure Hospital where
  id : String
  name : String
  lat : ℚ
  lon : ℚ
  capacity : ℕ
  specialties : List String
  emergency_services : Bool
  trauma_center : Bool
  current_wait_time : ℚ
  current_status : Option CurrentStatus
deriving DecidableEq, Repr

/-- Entry of the list returned by RouteOptimizer.find_optimal_hospital, as
consumed by the orchestrator (src/emergency_service.py lines 139-183). -/
structure HospitalOption where
  hospital : Hospital
  suitability_score : ℚ
deriving DecidableEq, Repr

/-- Route dictionary returned by RouteOptimizer.get_multiple_route_options, as
consumed by the orchestrator (fields path and algorithm are read). -/
structure Route where
  path : List ℕ
  algorithm : String
deriving DecidableEq, Repr

/-- Prediction dictionary returned by
EmergencyTrafficPredictor.predict_emergency_travel_time, as consumed by the
orchestrator: travel_time, time_saved, normal_travel_time are subscripted,
confidence is read with .get(key, 0.8) so it is Option-valued. -/
structure Prediction where
  travel_time : ℚ
  time_saved : ℚ
  normal_travel_time : ℚ
  confidence : Option ℚ
deriving DecidableEq, Repr

/-- Statistics dictionary returned by RouteOptimizer.calculate_route_stats, as
consumed by _generate_final_recommendation. -/
structure RouteStats where
  coordinates : List (ℚ × ℚ)
  total_distance_km : ℚ
deriving DecidableEq, Repr

/-- Per-route dictionary built in the orchestrator loop
(src/emergency_service.py lines 166-171). -/
structure RoutePrediction where
  route : Route
  prediction : Prediction
  stats : RouteStats
  total_response_time : ℚ
deriving DecidableEq, Repr

/-- Per-hospital dictionary built in the orchestrator loop
(src/emergency_service.py lines 179-184). -/
structure OptimizedResponse where
  hospital : Hospital
  best_route : RoutePrediction
  rank : ℕ
  suitability_score : ℚ
deriving DecidableEq, Repr

/-- Emergency call dictionary received by handle_emergency_call.  A field is
none when the key is absent from the request (a key present with value None
is modelled the same way; no claim distinguishes the two). -/
structure EmergencyData where
  call_id : Option String
  latitude : Option ℚ
  longitude : Option ℚ
  condition : Option String
  priority : Option String
  age : Option ℕ
  gender : Option String
  address : Option String
deriving DecidableEq, Repr

/-- emergency_location sub-dictionary of a response; the fallback response
omits the address key. -/
structure EmergencyLocation where
  latitude : ℚ
  longitude : ℚ
  address : Option String
deriving DecidableEq, Repr

/-- patient_info sub-dictionary of the optimized recommendation. -/
structure PatientInfo where
  condition : String
  priority : String
  age : Option ℕ
  gender : Option String
deriving DecidableEq, Repr

/-- recommended_hospital sub-dictionary of the optimized recommendation. -/
structure RecommendedHospital where
  id : String
  name : String
  latitude : ℚ
  longitude : ℚ
  specialties : List String
  current_wait_time : ℚ
deriving DecidableEq, Repr

/-- optimal_route sub-dictionary of the optimized recommendation. -/
structure OptimalRoute where
  algorithm : String
  coordinates : List (ℚ × ℚ)
  distance_km : ℚ
  estimated_time : ℚ
  time_saved : ℚ
  confidence : ℚ
deriving DecidableEq, Repr

/-- Entry of the alternative_options list of the optimized recommendation. -/
structure AlternativeOption where
  hospital_name : String
  travel_time : ℚ
  total_time : ℚ
  rank : ℕ
deriving DecidableEq, Repr

/-- current_conditions sub-dictionary of the optimized recommendation. -/
structure CurrentConditions where
  weather : String
  traffic_level : String
  incidents : ℕ
  temperature : ℚ
deriving DecidableEq, Repr

/-- performance_metrics sub-dictionary of the optimized recommendation. -/
structure PerformanceMetrics where
  processing_time_seconds : ℚ
  confidence_score : ℚ
  route_efficiency : ℚ
deriving DecidableEq, Repr

/-- Response dictionary returned by handle_emergency_call.  Option-valued
fields model key presence: the optimized recommendation and the fallback
response populate different subsets of keys. -/
structure Response where
  call_id : Option String
  timestamp : Option String
  status : Option String
  message : Option String
  emergency_location : Option EmergencyLocation
  patient_info : Option PatientInfo
  recommended_hospital : Option RecommendedHospital
  optimal_route : Option OptimalRoute
  alternative_options : Option (List AlternativeOption)
  current_conditions : Option CurrentConditions
  eta : Option String
  performance_metrics : Option PerformanceMetrics
  recommendation : Option String
deriving DecidableEq, Repr

/-- Abstracted collaborators of the orchestrator.  weather_try and traffic_try
stand for the network requests inside src/data_collector.py (the try-block
bodies); clock, nowTs, now_iso and eta_of stand for datetime.now() reads;
the remaining fields are the methods of RouteOptimizer,
EmergencyTrafficPredictor, DataPreprocessor and DistanceCalculator that the
orchestrator calls and whose defining files are not among the sources
(respectively whose body involves non-computable numerics, for
preprocess_single_sample). -/
structure ServiceEnv where
  weather_try : ℚ → ℚ → Except PyErr WeatherFeatures
  traffic_try : ℚ × ℚ → ℚ × ℚ → Except PyErr (List TrafficLeg)
  clock : ClockTime
  nowTs : ℚ
  now_iso : String
  eta_of : ℚ → String
  preprocess_single_sample : CollectedData → Except PyErr (List ℚ)
  find_optimal_hospital : ℚ × ℚ → String → ContextualFeatures → Except PyErr (List HospitalOption)
  get_multiple_route_options : ℚ × ℚ → ℚ × ℚ → ContextualFeatures → Except PyErr (List Route)
  calculate_travel_time : ℚ × ℚ → ℚ × ℚ → Except PyErr ℚ
  predict_emergency_travel_time : List ℚ → ℚ → String → String → Except PyErr Prediction
  calculate_route_stats : List ℕ → ContextualFeatures → Except PyErr RouteStats

/-- DataCollector.get_weather_data (src/data_collector.py lines 15-48): the
try block (both API requests and feature extraction) is env.weather_try; any
exception falls back to the default weather dictionary. -/
def get_weather_data (env : ServiceEnv) (lat lon : ℚ) : WeatherFeatures :=
  match env.weather_try lat lon with
  | Except.ok w => w
  | Except.error _ => _get_default_weather env.nowTs

/-- DataCollector.get_traffic_data (src/data_collector.py lines 76-107): the
try block is env.traffic_try; an exception or a non-OK API status yields the
empty list (a non-OK status is absorbed into env.traffic_try returning ok []). -/
def get_traffic_data (env : ServiceEnv) (origin destination : ℚ × ℚ) : List TrafficLeg :=
  match env.traffic_try origin destination with
  | Except.ok legs => legs
  | Except.error _ => []

/-- Incident search bounds computed in collect_all_data
(src/data_collector.py lines 221-226). -/
def incident_bounds (origin destination : ℚ × ℚ) : Bounds :=
  { north := max origin.1 destination.1 + 1/100
    south := min origin.1 destination.1 - 1/100
    east := max origin.2 destination.2 + 1/100
    west := min origin.2 destination.2 - 1/100 }

/-- DataCollector.collect_all_data (src/data_collector.py lines 209-235). -/
def collect_all_data (env : ServiceEnv) (origin destination : ℚ × ℚ) : CollectedData :=
  { weather := get_weather_data env origin.1 origin.2
    traffic := get_traffic_data env origin destination
    contextual := get_contextual_data env.clock
    incidents := get_realtime_incidents env.nowTs (incident_bounds origin destination)
    timestamp := env.nowTs }

/-- Sequential list traversal over Except, as performed by the Python
for-loops that append to an accumulator and propagate any raised exception. -/
def mapE {α β : Type} (f : α → Except PyErr β) : List α → Except PyErr (List β)
  | [] => Except.ok []
  | x :: xs =>
    match f x with
    | Except.error e => Except.error e
    | Except.ok y =>
      match mapE f xs with
      | Except.error e => Except.error e
      | Except.ok ys => Except.ok (y :: ys)

/-- Python min(route_predictions, key=lambda x: x.total_response_time)
(src/emergency_service.py lines 176-177): raises ValueError on an empty
list, otherwise returns the first element with minimal key (a later element
replaces the current best only when strictly smaller). -/
def min_by_total (l : List RoutePrediction) : Except PyErr RoutePrediction :=
  match l with
  | [] => Except.error (PyErr.valueError "min arg is an empty sequence")
  | x :: xs =>
    Except.ok (xs.foldl (fun best y => if y.total_response_time < best.total_response_time then y else best) x)

/-- Body of the inner route loop of handle_emergency_call
(src/emergency_service.py lines 150-173): base duration from the
straight-line travel-time estimate between the emergency location and the
hospital location, prediction from the feature vector and that base
duration (the route itself is not an input of the prediction), statistics
from the route path. -/
def route_prediction_of (env : ServiceEnv) (emergency_location hospital_location : ℚ × ℚ)
    (priority : String) (features : List ℚ) (contextual : ContextualFeatures)
    (hospital : Hospital) (route : Route) : Except PyErr RoutePrediction :=
  match env.calculate_travel_time emergency_location hospital_location with
  | Except.error e => Except.error e
  | Except.ok base_duration =>
    match env.predict_emergency_travel_time features base_duration "ambulance" priority with
    | Except.error e => Except.error e
    | Except.ok prediction =>
      match env.calculate_route_stats route.path contextual with
      | Except.error e => Except.error e
      | Except.ok route_stats =>
        Except.ok
          { route := route
            prediction := prediction
            stats := route_stats
            total_response_time := prediction.travel_time + hospital.current_wait_time }

/-- Route-candidate generation and prediction for one hospital
(src/emergency_service.py lines 144-173). -/
def build_route_predictions (env : ServiceEnv) (emergency_location hospital_location : ℚ × ℚ)
    (priority : String) (features : List ℚ) (contextual : ContextualFeatures)
    (hospital : Hospital) : Except PyErr (List RoutePrediction) :=
  match env.get_multiple_route_options emergency_location hospital_location contextual with
  | Except.error e => Except.error e
  | Except.ok route_options =>
    mapE (route_prediction_of env emergency_location hospital_location priority features contextual hospital) route_options

/-- The enumerate loop of handle_emergency_call over the sliced hospital
options (src/emergency_service.py lines 139-186), starting at index i. -/
def process_hospitals_from (env : ServiceEnv) (emergency_location : ℚ × ℚ)
    (priority : String) (features : List ℚ) (contextual : ContextualFeatures) :
    ℕ → List HospitalOption → Except PyErr (List OptimizedResponse)
  | _, [] => Except.ok []
  | i, hospital_option :: rest =>
    match build_route_predictions env emergency_location (hospital_option.hospital.lat, hospital_option.hospital.lon)
        priority features contextual hospital_option.hospital with
    | Except.error e => Except.error e
    | Except.ok route_predictions =>
      match min_by_total route_predictions with
      | Except.error e => Except.error e
      | Except.ok best_route =>
        match process_hospitals_from env emergency_location priority features contextual (i + 1) rest with
        | Except.error e => Except.error e
        | Except.ok tail =>
          Except.ok
            ({ hospital := hospital_option.hospital
               best_route := best_route
               rank := i + 1
               suitability_score := hospital_option.suitability_score } :: tail)

/-- The loop of src/emergency_service.py line 139: only the first three
ranked hospital options are evaluated. -/
def build_optimized_responses (env : ServiceEnv) (emergency_location : ℚ × ℚ)
    (priority : String) (features : List ℚ) (contextual : ContextualFeatures)
    (hospital_options : List HospitalOption) : Except PyErr (List OptimizedResponse) :=
  process_hospitals_from env emergency_location priority features contextual 0 (hospital_options.take 3)

/-- Alternative-option entry built by _generate_final_recommendation
(src/emergency_service.py lines 236-244). -/
def alternative_option_of (opt : OptimizedResponse) : AlternativeOption :=
  { hospital_name := opt.hospital.name
    travel_time := opt.best_route.prediction.travel_time
    total_time := opt.best_route.total_response_time
    rank := opt.rank }

/-- EmergencyResponseService._generate_final_recommendation
(src/emergency_service.py lines 200-262).  optimized_responses[0] raises
IndexError on an empty list; route_efficiency divides by
normal_travel_time, raising ZeroDivisionError when it is zero; the built
dictionary carries no status key. -/
def _generate_final_recommendation (env : ServiceEnv) (optimized_responses : List OptimizedResponse)
    (emergency_data : EmergencyData) (current_data : CollectedData) : Except PyErr Response :=
  match optimized_responses with
  | [] => Except.error PyErr.indexError
  | best_option :: rest =>
    match dict_get emergency_data.latitude "latitude" with
    | Except.error e => Except.error e
    | Except.ok lat =>
      match dict_get emergency_data.longitude "longitude" with
      | Except.error e => Except.error e
      | Except.ok lon =>
        if best_option.best_route.prediction.normal_travel_time = 0 then
          Except.error PyErr.zeroDivisionError
        else
          Except.ok
            { call_id := emergency_data.call_id
              timestamp := some env.now_iso
              status := none
              message := none
              emergency_location := some
                { latitude := lat
                  longitude := lon
                  address := some (emergency_data.address.getD "Unknown") }
              patient_info := some
                { condition := emergency_data.condition.getD "general"
                  priority := emergency_data.priority.getD "high"
                  age := emergency_data.age
                  gender := emergency_data.gender }
              recommended_hospital := some
                { id := best_option.hospital.id
                  name := best_option.hospital.name
                  latitude := best_option.hospital.lat
                  longitude := best_option.hospital.lon
                  specialties := best_option.hospital.specialties
                  current_wait_time := best_option.hospital.current_wait_time }
              optimal_route := some
                { algorithm := best_option.best_route.route.algorithm
                  coordinates := best_option.best_route.stats.coordinates
                  distance_km := best_option.best_route.stats.total_distance_km
                  estimated_time := best_option.best_route.prediction.travel_time
                  time_saved := best_option.best_route.prediction.time_saved
                  confidence := best_option.best_route.prediction.confidence.getD (4/5) }
              alternative_options := some ((rest.take 2).map alternative_option_of)
              current_conditions := some
                { weather := current_data.weather.weather_condition
                  traffic_level := if current_data.contextual.is_rush_hour ≠ 0 then "Heavy" else "Moderate"
                  incidents := current_data.incidents.length
                  temperature := current_data.weather.temperature }
              eta := some (env.eta_of best_option.best_route.prediction.travel_time)
              performance_metrics := some
                { processing_time_seconds := 5/2
                  confidence_score := best_option.best_route.prediction.confidence.getD (4/5)
                  route_efficiency := best_option.best_route.prediction.time_saved / best_option.best_route.prediction.normal_travel_time }
              recommendation := none }

/-- EmergencyResponseService._generate_fallback_response
(src/emergency_service.py lines 264-276): subscripts
emergency_data with latitude and longitude, so it raises KeyError when
either key is absent; it names no hospital, only a fixed guidance string. -/
def _generate_fallback_response (env : ServiceEnv) (emergency_data : EmergencyData) : Except PyErr Response :=
  match dict_get emergency_data.latitude "latitude" with
  | Except.error e => Except.error e
  | Except.ok lat =>
    match dict_get emergency_data.longitude "longitude" with
    | Except.error e => Except.error e
    | Except.ok lon =>
      Except.ok
        { call_id := emergency_data.call_id
          timestamp := some env.now_iso
          status := some "fallback"
          message := some "Using standard emergency protocols"
          emergency_location := some { latitude := lat, longitude := lon, address := none }
          patient_info := none
          recommended_hospital := none
          optimal_route := none
          alternative_options := none
          current_conditions := none
          eta := none
          performance_metrics := none
          recommendation := some "Dispatch to nearest available hospital using standard routes" }

/-- The try block of EmergencyResponseService.handle_emergency_call
(src/emergency_service.py lines 113-194). -/
def handle_emergency_call_body (env : ServiceEnv) (emergency_data : EmergencyData) : Except PyErr Response :=
  match dict_get emergency_data.latitude "latitude" with
  | Except.error e => Except.error e
  | Except.ok lat =>
    match dict_get emergency_data.longitude "longitude" with
    | Except.error e => Except.error e
    | Except.ok lon =>
      let emergency_location := (lat, lon)
      let patient_condition := emergency_data.condition.getD "general"
      let priority := emergency_data.priority.getD "high"
      let current_data := collect_all_data env emergency_location emergency_location
      match env.preprocess_single_sample current_data with
      | Except.error e => Except.error e
      | Except.ok features =>
        match env.find_optimal_hospital emergency_location patient_condition current_data.contextual with
        | Except.error e => Except.error e
        | Except.ok hospital_options =>
          match build_optimized_responses env emergency_location priority features current_data.contextual hospital_options with
          | Except.error e => Except.error e
          | Except.ok optimized_responses =>
            _generate_final_recommendation env optimized_responses emergency_data current_data

/-- EmergencyResponseService.handle_emergency_call
(src/emergency_service.py lines 111-198): the whole body runs in a
try-except; on any exception the fallback response is produced instead —
but the fallback builder itself can raise (KeyError), and an exception
raised inside the except handler propagates to the caller. -/
def handle_emergency_call (env : ServiceEnv) (emergency_data : EmergencyData) : Except PyErr Response :=
  match handle_emergency_call_body env emergency_data with
  | Except.ok r => Except.ok r
  | Except.error _ => _generate_fallback_response env emergency_data

/-- The canonical feature column list of DataPreprocessor.prepare_features
(src/data_preprocessor.py lines 197-205). -/
def FEATURE_COLUMNS : List String :=
  ["hour", "day_of_week", "month",
   "temperature", "humidity", "pressure", "visibility", "wind_speed",
   "is_raining", "is_snowing", "rain_intensity", "temp_trend", "rain_forecast_6h",
   "is_weekend", "is_rush_hour", "is_night", "is_holiday", "is_school_time",
   "distance_km", "duration_normal_min", "historical_traffic_ratio",
   "num_accidents", "num_construction", "major_incident_nearby",
   "sin_hour", "cos_hour", "sin_day", "cos_day", "sin_month", "cos_month"]

/-- The numerical feature list of DataPreprocessor.prepare_features
(src/data_preprocessor.py lines 217-220). -/
def NUMERICAL_FEATURES : List String :=
  ["temperature", "humidity", "pressure", "visibility", "wind_speed",
   "rain_intensity", "temp_trend", "distance_km", "duration_normal_min"]

/-- Mutable state of a DataPreprocessor instance
(src/data_preprocessor.py lines 11-14): the fitted numerical scaler is
tagged by the columns it was fitted on (its numeric parameters are not
needed by any claim), and feature_columns is the list assigned by the last
prepare_features call. -/
structure PreprocessorState where
  scalers_numerical : Option (List String)
  feature_columns : List String
deriving DecidableEq, Repr

/-- DataPreprocessor.prepare_features (src/data_preprocessor.py lines
194-234), restricted to its effect on the instance state and its column
selection: self.feature_columns is reassigned on every call, fitting or
not, and the scaler entry is replaced only when fit_scalers is true.  The
numeric fill and scaling of the data values is abstracted away (no claim
reads the scaled numbers). -/
def prepare_features (st : PreprocessorState) (df_columns : List String) (fit_scalers : Bool) :
    PreprocessorState × List String :=
  let available_columns := FEATURE_COLUMNS.filter (fun c => df_columns.contains c)
  let st1 : PreprocessorState := { st with feature_columns := available_columns }
  if fit_scalers then
    ({ st1 with scalers_numerical := some (NUMERICAL_FEATURES.filter (fun c => available_columns.contains c)) },
      available_columns)
  else (st1, available_columns)

/-- Config.CITY_BOUNDS (src/config.py lines 23-28). -/
def CITY_BOUNDS : Bounds :=
  { north := 131986/10000
    south := 127340/10000
    east := 778431/10000
    west := 773910/10000 }

/-- Whether a coordinate pair lies within the configured city bounds.  No
function in src/app.py performs this check; it is defined here to state the
out-of-bounds claims. -/
def in_city_bounds (lat lon : ℚ) : Bool :=
  decide (CITY_BOUNDS.south ≤ lat ∧ lat ≤ CITY_BOUNDS.north ∧
          CITY_BOUNDS.west ≤ lon ∧ lon ≤ CITY_BOUNDS.east)

/-- HTTP response of the /api/emergency endpoint (src/app.py lines 24-55). -/
inductive ApiResponse where
  | success (code : ℕ) (data : Response)
  | badRequest (code : ℕ) (error : String) (required : List String)
  | serverError (code : ℕ) (message : String)
deriving DecidableEq, Repr

/-- Rendering of a raised exception into the error message of the 500
response (str(e) in src/app.py line 54). -/
def py_err_message : PyErr → String
  | PyErr.keyError k => k
  | PyErr.indexError => "list index out of range"
  | PyErr.valueError m => m
  | PyErr.zeroDivisionError => "float division by zero"
  | PyErr.typeError m => m
  | PyErr.other m => m

/-- Wrapping of the orchestrator result by the endpoint: a 200 success
payload on return, a 500 error when the orchestrator raised
(src/app.py lines 38-55). -/
def api_wrap (r : Except PyErr Response) : ApiResponse :=
  match r with
  | Except.ok resp => ApiResponse.success 200 resp
  | Except.error e => ApiResponse.serverError 500 (py_err_message e)

/-- The /api/emergency handler (src/app.py lines 24-55): a request without a
JSON body raises TypeError inside the try (membership test on None) giving
a 500; a body missing latitude or longitude is rejected with 400; otherwise
the orchestrator is invoked — the coordinate values themselves are never
validated against Config.CITY_BOUNDS. -/
def handle_emergency_api (env : ServiceEnv) (body : Option EmergencyData) : ApiResponse :=
  match body with
  | none => ApiResponse.serverError 500 "argument of type NoneType is not iterable"
  | some emergency_data =>
    if emergency_data.latitude.isSome && emergency_data.longitude.isSome then
      api_wrap (handle_emergency_call env emergency_data)
    else
      ApiResponse.badRequest 400 "Missing required fields" ["latitude", "longitude"]

/-- Status dictionary attached to a hospital record by the /api/hospitals
endpoint (src/app.py lines 128-134).  int(capacity * 0.7) is modelled as
the floor of 7 * capacity / 10 (the float product differs from the exact
product by less than one ulp and truncates identically on the shipped
database). -/
def hospital_current_status (now_iso : String) (h : Hospital) : CurrentStatus :=
  { beds_available := h.capacity - h.capacity * 7 / 10
    emergency_queue := h.current_wait_time
    last_updated := now_iso }

/-- The in-place mutation hospital[current_status] = ... performed by the
/api/hospitals endpoint on each shared hospital record (src/app.py lines
128-134). -/
def add_current_status (now_iso : String) (h : Hospital) : Hospital :=
  { h with current_status := some (hospital_current_status now_iso h) }

/-- The /api/hospitals endpoint (src/app.py lines 121-145): first component
is the shared hospital list after the request (the records are mutated in
place), second component is the response payload (the same mutated list). -/
def get_hospitals_handler (hospitals : List Hospital) (now_iso : String) :
    List Hospital × List Hospital :=
  let updated := hospitals.map (add_current_status now_iso)
  (updated, updated)

/-- The shared hospital list after a /api/hospitals request. -/
def get_hospitals_state (hospitals : List Hospital) (now_iso : String) : List Hospital :=
  (get_hospitals_handler hospitals now_iso).1

/-- A hospital record with the current_status key removed; used to state that
the /api/hospitals mutation touches no other field. -/
def strip_current_status (h : Hospital) : Hospital :=
  { h with current_status := none }

/-- The hospital database loaded at startup by
EmergencyResponseService._load_hospital_database
(src/emergency_service.py lines 76-107). -/
def initial_hospitals : List Hospital :=
  [ { id := "H001", name := "Manipal Hospital Whitefield"
      lat := 129698/10000, lon := 775000/10000
      capacity := 200, specialties := ["cardiology", "neurology", "trauma"]
      emergency_services := true, trauma_center := true, current_wait_time := 20
      current_status := none },
    { id := "H002", name := "Apollo Hospital Bannerghatta"
      lat := 129056/10000, lon := 775936/10000
      capacity := 300, specialties := ["cardiac surgery", "oncology", "neurosurgery"]
      emergency_services := true, trauma_center := true, current_wait_time := 15
      current_status := none },
    { id := "H003", name := "Fortis Hospital Cunningham Road"
      lat := 129926/10000, lon := 775985/10000
      capacity := 150, specialties := ["emergency medicine", "pediatrics"]
      emergency_services := true, trauma_center := false, current_wait_time := 30
      current_status := none },
    { id := "H004", name := "Narayana Health City"
      lat := 128539/10000, lon := 776648/10000
      capacity := 500, specialties := ["cardiac surgery", "neurosurgery", "trauma", "pediatrics"]
      emergency_services := true, trauma_center := true, current_wait_time := 10
      current_status := none },
    { id := "H005", name := "St. Johns Medical College Hospital"
      lat := 129279/10000, lon := 776271/10000
      capacity := 250, specialties := ["general medicine", "surgery", "pediatrics"]
      emergency_services := true, trauma_center := false, current_wait_time := 25
      current_status := none } ]

/-- Squared Euclidean distance between two coordinate pairs, in degrees. -/
def dist_sq (a b : ℚ × ℚ) : ℚ :=
  (a.1 - b.1) ^ 2 + (a.2 - b.2) ^ 2

/-- Modelled from the spec: utils/distance_calculator.py is not among the
sources.  Straight-line distance in kilometres between two coordinate
pairs (one degree is taken as 111 km), computed as 111 times the sum of the
absolute coordinate differences.  This equals the Euclidean straight-line
distance exactly whenever the two points share a latitude or a longitude —
every concrete scenario below uses such axis-aligned pairs, so on every
evaluated input this is the straight-line distance the spec describes (a
rational-valued exact square root does not exist in general). -/
def straight_line_km (a b : ℚ × ℚ) : ℚ :=
  111 * (|a.1 - b.1| + |a.2 - b.2|)

/-- Modelled from the spec: DistanceCalculator.calculate_travel_time, the
straight-line travel-time estimate between an emergency location and a
hospital location, at a documented policy constant of 2 minutes per
kilometre (30 km/h average urban speed). -/
def calculate_travel_time_model (a b : ℚ × ℚ) : ℚ :=
  2 * straight_line_km a b

/-- Modelled from the spec: predictTravelTime of the
TrafficPredictionEngine (spec section 4.2) applied to a predicted
multiplier and uncertainty.  The vehicle speed factor is
Config.AMBULANCE_SPEED_FACTOR = 1.3 (src/config.py line 32), tightened to
1.5 for critical priority; the travel time is floored at a small positive
minimum of 1 minute; confidence is 1 minus the uncertainty, clamped
to the unit interval. -/
def predict_travel_time_model (multiplier uncertainty base_duration : ℚ) (priority : String) : Prediction :=
  let speed_factor : ℚ := if priority = "critical" then 3/2 else 13/10
  let adjusted_multiplier := multiplier / speed_factor
  let travel_time := max (base_duration * adjusted_multiplier) 1
  { travel_time := travel_time
    time_saved := base_duration * multiplier - travel_time
    normal_travel_time := base_duration
    confidence := some (max 0 (min 1 (1 - uncertainty))) }

/-- Modelled from the spec: required specialty per condition code for the
suitability ranking (spec section 4.3, cardiac to cardiology and the like). -/
def specialty_required (condition : String) : Option String :=
  if condition = "cardiac" then some "cardiology"
  else if condition = "stroke" then some "neurology"
  else if condition = "respiratory" then some "pulmonology"
  else none

/-- Modelled from the spec: binary specialty match of a condition against a
hospital (trauma requires the trauma_center flag; a condition with no
required specialty matches every hospital). -/
def specialty_match (condition : String) (h : Hospital) : ℚ :=
  if condition = "trauma" then (if h.trauma_center then 1 else 0)
  else
    match specialty_required condition with
    | some s => if h.specialties.contains s then 1 else 0
    | none => 1

/-- Modelled from the spec: suitability score of a hospital for an emergency
(spec section 4.3) — a weighted sum of specialty match, straight-line
distance proxy (here its square, a monotone proxy), current wait time and
capacity headroom, with the documented policy weights 10, 100, 1/10 and
1/1000. -/
def suitability_score_model (loc : ℚ × ℚ) (condition : String) (h : Hospital) : ℚ :=
  10 * specialty_match condition h - 100 * dist_sq loc (h.lat, h.lon)
    - h.current_wait_time / 10 + (h.capacity : ℚ) / 1000

/-- Insertion into a list ordered by descending suitability score with ties
broken by lower hospital id (spec section 4.3). -/
def insert_ranked (x : HospitalOption) : List HospitalOption → List HospitalOption
  | [] => [x]
  | y :: ys =>
    if y.suitability_score < x.suitability_score ∨
        (x.suitability_score = y.suitability_score ∧ x.hospital.id ≤ y.hospital.id) then
      x :: y :: ys
    else y :: insert_ranked x ys

/-- Modelled from the spec: RouteOptimizer.find_optimal_hospital — scores
every hospital of the registry and returns the options ordered descending
by suitability score (spec section 4.3). -/
def find_optimal_hospital_model (hospitals : List Hospital) (loc : ℚ × ℚ) (condition : String) :
    List HospitalOption :=
  (hospitals.map (fun h => { hospital := h, suitability_score := suitability_score_model loc condition h })).foldr insert_ranked []

/-- Two-hospital registry used in the concrete scenarios: a cardiology
hospital 0.2 degrees away with a 10 minute wait, and a general hospital
0.1 degrees away with a 5 minute wait. -/
def hospital_far_cardiology : Hospital :=
  { id := "H001", name := "Cardiology Center"
    lat := 66/5, lon := 77
    capacity := 200, specialties := ["cardiology"]
    emergency_services := true, trauma_center := true, current_wait_time := 10
    current_status := none }

def hospital_near_general : Hospital :=
  { id := "H002", name := "General Hospital"
    lat := 131/10, lon := 77
    capacity := 200, specialties := ["general medicine"]
    emergency_services := true, trauma_center := false, current_wait_time := 5
    current_status := none }

def scenario_hospitals : List Hospital :=
  [hospital_far_cardiology, hospital_near_general]

/-- Concrete service environment used for the scenarios: the weather request
times out (exercising the default path), the live traffic lookup returns no
legs, the clock reads 03:00 on a Wednesday in May, the route search yields
two distinct candidates, and the ranking, distance and prediction
collaborators are the spec-modelled instances above (the prediction engine
is a trained model set whose members all output multiplier 1 with no
disagreement, so uncertainty 0). -/
def env_base : ServiceEnv :=
  { weather_try := fun _ _ => Except.error (PyErr.other "weather request timeout")
    traffic_try := fun _ _ => Except.ok []
    clock := { hour := 3, weekday := 2, month := 5 }
    nowTs := 0
    now_iso := "2025-01-01T03:00:00"
    eta_of := fun _ => "2025-01-01T03:30:00"
    preprocess_single_sample := fun _ => Except.ok [1]
    find_optimal_hospital := fun loc condition _ =>
      Except.ok (find_optimal_hospital_model scenario_hospitals loc condition)
    get_multiple_route_options := fun _ _ _ =>
      Except.ok [{ path := [0, 1], algorithm := "astar" },
                 { path := [0, 2, 1], algorithm := "dijkstra" }]
    calculate_travel_time := fun a b => Except.ok (calculate_travel_time_model a b)
    predict_emergency_travel_time := fun _ base_duration _ priority =>
      Except.ok (predict_travel_time_model 1 0 base_duration priority)
    calculate_route_stats := fun path _ =>
      Except.ok { coordinates := [], total_distance_km := (path.length : ℚ) } }

/-- Environment in which the hospital ranking raises (for example a
disconnected road network reported as NoRouteFoundError), so that the
optimized path of every call fails. -/
def env_fail_ranking : ServiceEnv :=
  { env_base with find_optimal_hospital := fun _ _ _ => Except.error (PyErr.other "NoRouteFoundError") }

/-- A cardiac emergency call at (13, 77). -/
def d_cardiac : EmergencyData :=
  { call_id := some "EMG1", latitude := some 13, longitude := some 77
    condition := some "cardiac", priority := none, age := none, gender := none, address := none }

/-- An emergency call dictionary with no keys at all. -/
def d_empty : EmergencyData :=
  { call_id := none, latitude := none, longitude := none
    condition := none, priority := none, age := none, gender := none, address := none }

/-- An emergency call at (0, 0), far outside the configured city bounds. -/
def d_out_of_bounds : EmergencyData :=
  { call_id := some "EMG2", latitude := some 0, longitude := some 0
    condition := none, priority := none, age := none, gender := none, address := none }

/-- The contextual snapshot of the scenario environment (03:00, Wednesday,
May: night, no rush hour, no school, no weekend). -/
def scenario_contextual : ContextualFeatures :=
  { hour := 3, day_of_week := 2, is_weekend := 0, is_rush_hour := 0
    is_night := 1, month := 5, is_holiday := 0, is_school_time := 0 }

/-- The collected-data snapshot of the cardiac scenario: default weather
(the weather request timed out), no traffic legs, the mock incident list. -/
def scenario_collected : CollectedData :=
  { weather := _get_default_weather 0
    traffic := []
    contextual := scenario_contextual
    incidents := get_realtime_incidents 0 (incident_bounds (13, 77) (13, 77))
    timestamp := 0 }

/-- The ranked hospital options of the cardiac scenario: the cardiology
hospital scores 10 - 4 - 1 + 1/5 = 26/5, the nearer general hospital
scores 0 - 1 - 1/2 + 1/5 = -13/10. -/
def scenario_options : List HospitalOption :=
  [ { hospital := hospital_far_cardiology, suitability_score := 26/5 },
    { hospital := hospital_near_general, suitability_score := -13/10 } ]

/-- Prediction attached to every route candidate of the far cardiology
hospital: base duration 222/5 minutes (22.2 km at 2 min/km), travel time
(222/5) * (10/13) = 444/13 minutes. -/
def scenario_prediction_far : Prediction :=
  { travel_time := 444/13, time_saved := 666/65, normal_travel_time := 222/5, confidence := some 1 }

/-- Prediction attached to every route candidate of the near general
hospital: base duration 111/5 minutes, travel time 222/13 minutes. -/
def scenario_prediction_near : Prediction :=
  { travel_time := 222/13, time_saved := 333/65, normal_travel_time := 111/5, confidence := some 1 }

/-- The two route predictions generated for the far cardiology hospital. -/
def scenario_route_predictions : List RoutePrediction :=
  [ { route := { path := [0, 1], algorithm := "astar" }
      prediction := scenario_prediction_far
      stats := { coordinates := [], total_distance_km := 2 }
      total_response_time := 574/13 },
    { route := { path := [0, 2, 1], algorithm := "dijkstra" }
      prediction := scenario_prediction_far
      stats := { coordinates := [], total_distance_km := 3 }
      total_response_time := 574/13 } ]

/-- The two route predictions generated for the near general hospital. -/
def scenario_route_predictions_near : List RoutePrediction :=
  [ { route := { path := [0, 1], algorithm := "astar" }
      prediction := scenario_prediction_near
      stats := { coordinates := [], total_distance_km := 2 }
      total_response_time := 287/13 },
    { route := { path := [0, 2, 1], algorithm := "dijkstra" }
      prediction := scenario_prediction_near
      stats := { coordinates := [], total_distance_km := 3 }
      total_response_time := 287/13 } ]

/-- The optimized per-hospital responses of the cardiac scenario: the
cardiology hospital at rank 1 with total response time 574/13 = 44.15
minutes, the general hospital at rank 2 with total response time
287/13 = 22.08 minutes. -/
def scenario_first : OptimizedResponse :=
  { hospital := hospital_far_cardiology
    best_route :=
      { route := { path := [0, 1], algorithm := "astar" }
        prediction := scenario_prediction_far
        stats := { coordinates := [], total_distance_km := 2 }
        total_response_time := 574/13 }
    rank := 1
    suitability_score := 26/5 }

/-- The rank-2 optimized response of the cardiac scenario. -/
def scenario_second : OptimizedResponse :=
  { hospital := hospital_near_general
    best_route :=
      { route := { path := [0, 1], algorithm := "astar" }
        prediction := scenario_prediction_near
        stats := { coordinates := [], total_distance_km := 2 }
        total_response_time := 287/13 }
    rank := 2
    suitability_score := -13/10 }

def scenario_responses : List OptimizedResponse :=
  [scenario_first, scenario_second]

/-- The final recommendation of the cardiac scenario: the rank-1 cardiology
hospital, with one alternative option, and no status key. -/
def scenario_response : Response :=
  { call_id := some "EMG1"
    timestamp := some "2025-01-01T03:00:00"
    status := none
    message := none
    emergency_location := some { latitude := 13, longitude := 77, address := some "Unknown" }
    patient_info := some { condition := "cardiac", priority := "high", age := none, gender := none }
    recommended_hospital := some
      { id := "H001", name := "Cardiology Center", latitude := 66/5, longitude := 77
        specialties := ["cardiology"], current_wait_time := 10 }
    optimal_route := some
      { algorithm := "astar", coordinates := [], distance_km := 2
        estimated_time := 444/13, time_saved := 666/65, confidence := 1 }
    alternative_options := some
      [{ hospital_name := "General Hospital", travel_time := 222/13, total_time := 287/13, rank := 2 }]
    current_conditions := some
      { weather := "Clear", traffic_level := "Moderate", incidents := 2, temperature := 25 }
    eta := some "2025-01-01T03:30:00"
    performance_metrics := some
      { processing_time_seconds := 5/2, confidence_score := 1, route_efficiency := 3/13 }
    recommendation := none }

/-- The fallback response produced for the cardiac call when the optimized
path fails. -/
def scenario_fallback : Response :=
  { call_id := some "EMG1"
    timestamp := some "2025-01-01T03:00:00"
    status := some "fallback"
    message := some "Using standard emergency protocols"
    emergency_location := some { latitude := 13, longitude := 77, address := none }
    patient_info := none
    recommended_hospital := none
    optimal_route := none
    alternative_options := none
    current_conditions := none
    eta := none
    performance_metrics := none
    recommendation := some "Dispatch to nearest available hospital using standard routes" }

/-! Small evaluation facts used by the concrete scenario proofs. -/

lemma str_cardiac_trauma : (("cardiac" : String) = "trauma") = False := by simp

lemma str_card_gen : (("cardiology" : String) = "general medicine") = False := by simp

lemma str_high_critical : (("high" : String) = "critical") = False := by simp

lemma abs_one_fifth : |(1 : ℚ)/5| = 1/5 := abs_of_nonneg (by norm_num)

lemma abs_one_tenth : |(1 : ℚ)/10| = 1/10 := abs_of_nonneg (by norm_num)

/-- The collected snapshot of the cardiac scenario evaluates to its literal
value. -/
lemma eval_collect : collect_all_data env_base (13, 77) (13, 77) = scenario_collected := by
  norm_num [collect_all_data, env_base, get_weather_data, get_traffic_data, get_contextual_data,
    _check_holiday, _check_school_hours, scenario_collected, scenario_contextual]

/-- The spec-modelled ranking puts the cardiology hospital first. -/
lemma eval_rank : find_optimal_hospital_model scenario_hospitals (13, 77) "cardiac" = scenario_options := by
  norm_num [find_optimal_hospital_model, scenario_hospitals, suitability_score_model,
    specialty_match, specialty_required, dist_sq, hospital_far_cardiology, hospital_near_general,
    insert_ranked, scenario_options, str_cardiac_trauma, str_card_gen]

/-- The per-hospital loop of the cardiac scenario evaluates to the two
literal optimized responses. -/
lemma eval_build_lit : build_optimized_responses env_base (13, 77) "high" [1]
    { hour := 3, day_of_week := 2, is_weekend := 0, is_rush_hour := 0, is_night := 1, month := 5,
      is_holiday := 0, is_school_time := 0 } scenario_options = Except.ok scenario_responses := by
  norm_num [build_optimized_responses, process_hospitals_from, build_route_predictions,
    env_base, mapE, route_prediction_of, min_by_total,
    calculate_travel_time_model, straight_line_km, predict_travel_time_model,
    hospital_far_cardiology, hospital_near_general, scenario_options, scenario_responses,
    scenario_first, scenario_second,
    scenario_prediction_far, scenario_prediction_near, str_high_critical, max_def,
    abs_one_fifth, abs_one_tenth]

/-- The route predictions of the first-ranked hospital evaluate to their two
literal candidates. -/
lemma eval_build_far : build_route_predictions env_base (13, 77) (66/5, 77) "high" [1]
    scenario_contextual hospital_far_cardiology = Except.ok scenario_route_predictions := by
  norm_num [build_route_predictions, env_base, mapE, route_prediction_of,
    calculate_travel_time_model, straight_line_km, predict_travel_time_model,
    hospital_far_cardiology, scenario_route_predictions, scenario_prediction_far,
    str_high_critical, max_def, abs_one_fifth]

lemma env_base_preprocess : env_base.preprocess_single_sample = fun _ => Except.ok [1] := rfl

lemma env_base_find : env_base.find_optimal_hospital =
    fun loc condition _ => Except.ok (find_optimal_hospital_model scenario_hospitals loc condition) := rfl

lemma env_base_now : env_base.now_iso = "2025-01-01T03:00:00" := rfl

lemma env_base_eta : env_base.eta_of = fun _ => "2025-01-01T03:30:00" := rfl

/-- The try block of the cardiac scenario call succeeds with the literal
recommendation. -/
lemma eval_body : handle_emergency_call_body env_base d_cardiac = Except.ok scenario_response := by
  norm_num [handle_emergency_call_body, d_cardiac, dict_get, eval_collect,
    env_base_preprocess, env_base_find, env_base_now, env_base_eta, eval_rank, eval_build_lit,
    scenario_collected, scenario_contextual, _get_default_weather, get_realtime_incidents,
    _generate_final_recommendation, scenario_responses, scenario_response,
    scenario_first, scenario_second,
    scenario_prediction_far, scenario_prediction_near, alternative_option_of,
    hospital_far_cardiology, hospital_near_general]

/-- The cardiac scenario call returns the literal optimized recommendation. -/
lemma eval_handle : handle_emergency_call env_base d_cardiac = Except.ok scenario_response := by
  rw [handle_emergency_call, eval_body]

/-- When the ranking collaborator raises, the cardiac call returns the
literal fallback response. -/
lemma eval_handle_fail : handle_emergency_call env_fail_ranking d_cardiac = Except.ok scenario_fallback := by
  norm_num [handle_emergency_call, handle_emergency_call_body, env_fail_ranking, env_base,
    d_cardiac, dict_get, _generate_fallback_response, scenario_fallback]

lemma mapE_mem_ok {α β : Type} (f : α → Except PyErr β) (l : List α) (ys : List β)
    (h : mapE f l = Except.ok ys) : ∀ y ∈ ys, ∃ x, x ∈ l ∧ f x = Except.ok y := by
  induction l generalizing ys with
  | nil =>
    simp only [mapE] at h
    cases h
    simp
  | cons x xs ih =>
    simp only [mapE] at h
    cases hfx : f x with
    | error e => simp [hfx] at h
    | ok y0 =>
      simp only [hfx] at h
      cases hrec : mapE f xs with
      | error e => simp [hrec] at h
      | ok ys0 =>
        simp only [hrec] at h
        cases h
        intro y hy
        rcases List.mem_cons.mp hy with h1 | h2
        · exact ⟨x, List.mem_cons_self x xs, h1 ▸ hfx⟩
        · obtain ⟨x2, hx2, hfx2⟩ := ih ys0 hrec y h2
          exact ⟨x2, List.mem_cons_of_mem x hx2, hfx2⟩

lemma route_prediction_of_ok (env : ServiceEnv) (loc hloc : ℚ × ℚ) (priority : String)
    (features : List ℚ) (contextual : ContextualFeatures) (hospital : Hospital) (route : Route)
    (rp : RoutePrediction)
    (hrp : route_prediction_of env loc hloc priority features contextual hospital route = Except.ok rp) :
    ∃ base_duration prediction route_stats,
      env.calculate_travel_time loc hloc = Except.ok base_duration ∧
      env.predict_emergency_travel_time features base_duration "ambulance" priority = Except.ok prediction ∧
      env.calculate_route_stats route.path contextual = Except.ok route_stats ∧
      rp = { route := route, prediction := prediction, stats := route_stats,
             total_response_time := prediction.travel_time + hospital.current_wait_time } := by
  unfold route_prediction_of at hrp
  cases hb : env.calculate_travel_time loc hloc with
  | error e => simp [hb] at hrp
  | ok b =>
    simp only [hb] at hrp
    cases hp : env.predict_emergency_travel_time features b "ambulance" priority with
    | error e => simp [hp] at hrp
    | ok p =>
      simp only [hp] at hrp
      cases hs : env.calculate_route_stats route.path contextual with
      | error e => simp [hs] at hrp
      | ok s =>
        simp only [hs] at hrp
        cases hrp
        exact ⟨b, p, s, rfl, hp, rfl, rfl⟩

lemma build_route_predictions_ok (env : ServiceEnv) (loc hloc : ℚ × ℚ) (priority : String)
    (features : List ℚ) (contextual : ContextualFeatures) (hospital : Hospital)
    (rps : List RoutePrediction)
    (h : build_route_predictions env loc hloc priority features contextual hospital = Except.ok rps) :
    ∀ rp ∈ rps, ∃ base_duration,
      env.calculate_travel_time loc hloc = Except.ok base_duration ∧
      env.predict_emergency_travel_time features base_duration "ambulance" priority = Except.ok rp.prediction ∧
      rp.total_response_time = rp.prediction.travel_time + hospital.current_wait_time := by
  intro rp hmem
  unfold build_route_predictions at h
  cases hro : env.get_multiple_route_options loc hloc contextual with
  | error e => simp [hro] at h
  | ok route_options =>
    simp only [hro] at h
    obtain ⟨route, _, hfx⟩ := mapE_mem_ok _ _ _ h rp hmem
    obtain ⟨b, p, s, hb, hp, hs, hrpeq⟩ :=
      route_prediction_of_ok env loc hloc priority features contextual hospital route rp hfx
    subst hrpeq
    exact ⟨b, hb, hp, rfl⟩

lemma build_route_predictions_const (env : ServiceEnv) (loc hloc : ℚ × ℚ) (priority : String)
    (features : List ℚ) (contextual : ContextualFeatures) (hospital : Hospital)
    (rps : List RoutePrediction)
    (h : build_route_predictions env loc hloc priority features contextual hospital = Except.ok rps) :
    ∀ rp1 ∈ rps, ∀ rp2 ∈ rps, rp1.prediction = rp2.prediction := by
  intro rp1 h1 rp2 h2
  obtain ⟨b1, hb1, hp1, _⟩ := build_route_predictions_ok env loc hloc priority features contextual hospital rps h rp1 h1
  obtain ⟨b2, hb2, hp2, _⟩ := build_route_predictions_ok env loc hloc priority features contextual hospital rps h rp2 h2
  rw [hb1] at hb2
  injection hb2 with hb12
  subst hb12
  rw [hp1] at hp2
  injection hp2

lemma foldl_min_mem (xs : List RoutePrediction) :
    ∀ x : RoutePrediction,
      xs.foldl (fun best y => if y.total_response_time < best.total_response_time then y else best) x ∈ x :: xs := by
  induction xs with
  | nil => intro x; simp
  | cons y ys ih =>
    intro x
    simp only [List.foldl_cons]
    by_cases hy : y.total_response_time < x.total_response_time
    · rw [if_pos hy]
      exact List.mem_cons_of_mem x (ih y)
    · rw [if_neg hy]
      rcases List.mem_cons.mp (ih x) with h1 | h1
      · rw [h1]
        exact List.mem_cons_self x _
      · exact List.mem_cons_of_mem _ (List.mem_cons_of_mem _ h1)

lemma min_by_total_mem (l : List RoutePrediction) (m : RoutePrediction)
    (h : min_by_total l = Except.ok m) : m ∈ l := by
  cases l with
  | nil => simp [min_by_total] at h
  | cons x xs =>
    simp only [min_by_total] at h
    cases h
    exact foldl_min_mem xs x

lemma process_hospitals_mem (env : ServiceEnv) (loc : ℚ × ℚ) (priority : String)
    (features : List ℚ) (contextual : ContextualFeatures) :
    ∀ (i : ℕ) (hos : List HospitalOption) (rs : List OptimizedResponse),
      process_hospitals_from env loc priority features contextual i hos = Except.ok rs →
      ∀ o ∈ rs, ∃ rps,
        build_route_predictions env loc (o.hospital.lat, o.hospital.lon) priority features contextual o.hospital = Except.ok rps ∧
        min_by_total rps = Except.ok o.best_route := by
  intro i hos
  induction hos generalizing i with
  | nil =>
    intro rs h o ho
    simp only [process_hospitals_from] at h
    cases h
    simp at ho
  | cons ho rest ih =>
    intro rs h o hmem
    simp only [process_hospitals_from] at h
    cases hb : build_route_predictions env loc (ho.hospital.lat, ho.hospital.lon) priority features contextual ho.hospital with
    | error e => simp [hb] at h
    | ok rps =>
      simp only [hb] at h
      cases hm : min_by_total rps with
      | error e => simp [hm] at h
      | ok best =>
        simp only [hm] at h
        cases hrec : process_hospitals_from env loc priority features contextual (i + 1) rest with
        | error e => simp [hrec] at h
        | ok tail =>
          simp only [hrec] at h
          cases h
          rcases List.mem_cons.mp hmem with h1 | h1
          · subst h1
            exact ⟨rps, hb, hm⟩
          · exact ih (i + 1) tail hrec o h1

lemma process_hospitals_shape (env : ServiceEnv) (loc : ℚ × ℚ) (priority : String)
    (features : List ℚ) (contextual : ContextualFeatures) :
    ∀ (i : ℕ) (hos : List HospitalOption) (rs : List OptimizedResponse),
      process_hospitals_from env loc priority features contextual i hos = Except.ok rs →
      rs.map (fun o => o.hospital) = hos.map (fun ho => ho.hospital) ∧
      rs.map (fun o => o.rank) = List.range' (i + 1) rs.length := by
  intro i hos
  induction hos generalizing i with
  | nil =>
    intro rs h
    simp only [process_hospitals_from] at h
    cases h
    simp
  | cons ho rest ih =>
    intro rs h
    simp only [process_hospitals_from] at h
    cases hb : build_route_predictions env loc (ho.hospital.lat, ho.hospital.lon) priority features contextual ho.hospital with
    | error e => simp [hb] at h
    | ok rps =>
      simp only [hb] at h
      cases hm : min_by_total rps with
      | error e => simp [hm] at h
      | ok best =>
        simp only [hm] at h
        cases hrec : process_hospitals_from env loc priority features contextual (i + 1) rest with
        | error e => simp [hrec] at h
        | ok tail =>
          simp only [hrec] at h
          cases h
          obtain ⟨ih1, ih2⟩ := ih (i + 1) tail hrec
          constructor
          · simp [ih1]
          · simp only [List.map_cons, ih2, List.length_cons]
            rw [List.range'_succ]

lemma generate_fallback_of_coords (env : ServiceEnv) (d : EmergencyData) (la lo : ℚ)
    (hla : d.latitude = some la) (hlo : d.longitude = some lo) :
    _generate_fallback_response env d = Except.ok
      { call_id := d.call_id
        timestamp := some env.now_iso
        status := some "fallback"
        message := some "Using standard emergency protocols"
        emergency_location := some { latitude := la, longitude := lo, address := none }
        patient_info := none
        recommended_hospital := none
        optimal_route := none
        alternative_options := none
        current_conditions := none
        eta := none
        performance_metrics := none
        recommendation := some "Dispatch to nearest available hospital using standard routes" } := by
  simp [_generate_fallback_response, dict_get, hla, hlo]

lemma handle_ok_of_coords (env : ServiceEnv) (d : EmergencyData) (la lo : ℚ)
    (hla : d.latitude = some la) (hlo : d.longitude = some lo) :
    ∃ r, handle_emergency_call env d = Except.ok r ∧
      (∀ e, handle_emergency_call_body env d = Except.error e → r.status = some "fallback") := by
  unfold handle_emergency_call
  cases hb : handle_emergency_call_body env d with
  | ok r =>
    refine ⟨r, rfl, ?_⟩
    intro e he
    cases he
  | error e0 =>
    refine ⟨_, generate_fallback_of_coords env d la lo hla hlo, ?_⟩
    intro e _
    rfl

lemma generate_final_status_none (env : ServiceEnv) (rs : List OptimizedResponse)
    (d : EmergencyData) (cd : CollectedData) (r : Response)
    (h : _generate_final_recommendation env rs d cd = Except.ok r) : r.status = none := by
  unfold _generate_final_recommendation at h
  cases rs with
  | nil => cases h
  | cons best rest =>
    cases hla : dict_get d.latitude "latitude" with
    | error e => simp [hla] at h
    | ok la =>
      simp only [hla] at h
      cases hlo : dict_get d.longitude "longitude" with
      | error e => simp [hlo] at h
      | ok lo =>
        simp only [hlo] at h
        by_cases hz : best.best_route.prediction.normal_travel_time = 0
        · rw [if_pos hz] at h
          cases h
        · rw [if_neg hz] at h
          cases h
          rfl

lemma generate_final_fields (env : ServiceEnv) (best : OptimizedResponse)
    (rest : List OptimizedResponse) (d : EmergencyData) (cd : CollectedData) (r : Response)
    (h : _generate_final_recommendation env (best :: rest) d cd = Except.ok r) :
    r.recommended_hospital = some
      { id := best.hospital.id
        name := best.hospital.name
        latitude := best.hospital.lat
        longitude := best.hospital.lon
        specialties := best.hospital.specialties
        current_wait_time := best.hospital.current_wait_time } ∧
    r.alternative_options = some ((rest.take 2).map alternative_option_of) := by
  unfold _generate_final_recommendation at h
  cases hla : dict_get d.latitude "latitude" with
  | error e => simp [hla] at h
  | ok la =>
    simp only [hla] at h
    cases hlo : dict_get d.longitude "longitude" with
    | error e => simp [hlo] at h
    | ok lo =>
      simp only [hlo] at h
      by_cases hz : best.best_route.prediction.normal_travel_time = 0
      · rw [if_pos hz] at h
        cases h
      · rw [if_neg hz] at h
        cases h
        exact ⟨rfl, rfl⟩

lemma eval_final : _generate_final_recommendation env_base scenario_responses d_cardiac scenario_collected = Except.ok scenario_response := by
  norm_num [_generate_final_recommendation, scenario_responses, scenario_first, scenario_second,
    d_cardiac, dict_get, env_base_now, env_base_eta, scenario_collected, scenario_contextual,
    _get_default_weather, get_realtime_incidents, scenario_response,
    scenario_prediction_far, scenario_prediction_near, alternative_option_of,
    hospital_far_cardiology, hospital_near_general]

lemma fallback_status (env : ServiceEnv) (d : EmergencyData) (r : Response)
    (h : _generate_fallback_response env d = Except.ok r) : r.status = some "fallback" := by
  unfold _generate_fallback_response at h
  cases hla : dict_get d.latitude "latitude" with
  | error e => simp [hla] at h
  | ok la =>
    simp only [hla] at h
    cases hlo : dict_get d.longitude "longitude" with
    | error e => simp [hlo] at h
    | ok lo =>
      simp only [hlo] at h
      cases h
      rfl

/-- Claim C1, counterexample: in the concrete cardiac scenario every
evaluated hospital yields a route prediction, yet the final recommendation
names the rank-1 cardiology hospital H001 with predicted travel time plus
wait 574/13 minutes, while the evaluated hospital H002 has the strictly
smaller 287/13 minutes — so the recommended hospital does not minimize
predicted travel time plus wait time over the evaluated hospitals. -/
theorem C1_counterexample :
    handle_emergency_call env_base d_cardiac = Except.ok scenario_response ∧
    scenario_response.recommended_hospital = some
      { id := "H001", name := "Cardiology Center", latitude := 66/5, longitude := 77
        specialties := ["cardiology"], current_wait_time := 10 } ∧
    build_optimized_responses env_base (13, 77) "high" [1] scenario_contextual scenario_options =
      Except.ok scenario_responses ∧
    scenario_responses.map (fun o => (o.hospital.id, o.best_route.total_response_time)) =
      [("H001", 574/13), ("H002", 287/13)] ∧
    ((287 : ℚ)/13 < 574/13) ∧ ("H002" : String) ≠ "H001" := by
  refine ⟨eval_handle, rfl, eval_build_lit, ?_, by norm_num, by simp⟩
  simp [scenario_responses, scenario_first, scenario_second,
    hospital_far_cardiology, hospital_near_general]

/-- Claim C1, amended: the final recommendation names the hospital of the
first (rank-1, top suitability-ranked) optimized response, irrespective of
the travel-plus-wait totals of the other evaluated hospitals. -/
theorem C1_amended (env : ServiceEnv) (best : OptimizedResponse)
    (rest : List OptimizedResponse) (d : EmergencyData) (cd : CollectedData) (r : Response)
    (h : _generate_final_recommendation env (best :: rest) d cd = Except.ok r) :
    r.recommended_hospital = some
      { id := best.hospital.id
        name := best.hospital.name
        latitude := best.hospital.lat
        longitude := best.hospital.lon
        specialties := best.hospital.specialties
        current_wait_time := best.hospital.current_wait_time } :=
  (generate_final_fields env best rest d cd r h).1

/-- Witness for the amended claim C1 at the concrete cardiac scenario. -/
theorem C1_witness :
    scenario_response.recommended_hospital = some
      { id := "H001", name := "Cardiology Center", latitude := 66/5, longitude := 77
        specialties := ["cardiology"], current_wait_time := 10 } :=
  C1_amended env_base scenario_first [scenario_second] d_cardiac scenario_collected
    scenario_response eval_final

/-- Claim C2, counterexample: an emergency call dictionary without a
latitude key makes the optimized path raise KeyError; the except handler
then calls the fallback builder, which subscripts the same missing key and
raises KeyError itself, so handle_emergency_call propagates an exception
instead of returning a response. -/
theorem C2_counterexample :
    handle_emergency_call env_base d_empty = Except.error (PyErr.keyError "latitude") := by
  simp [handle_emergency_call, handle_emergency_call_body, d_empty, dict_get,
    _generate_fallback_response]

/-- Claim C2, amended: for every emergency call input that carries latitude
and longitude values, handle_emergency_call returns a response and never
propagates an exception, and whenever the optimized path fails the
returned response carries status fallback. -/
theorem C2_amended (env : ServiceEnv) (d : EmergencyData) (la lo : ℚ)
    (hla : d.latitude = some la) (hlo : d.longitude = some lo) :
    ∃ r, handle_emergency_call env d = Except.ok r ∧
      (∀ e, handle_emergency_call_body env d = Except.error e → r.status = some "fallback") :=
  handle_ok_of_coords env d la lo hla hlo

/-- Witness for the amended claim C2: the cardiac call against the failing
ranking environment, whose optimized path raises. -/
theorem C2_witness :
    ∃ r, handle_emergency_call env_fail_ranking d_cardiac = Except.ok r ∧
      (∀ e, handle_emergency_call_body env_fail_ranking d_cardiac = Except.error e →
        r.status = some "fallback") :=
  C2_amended env_fail_ranking d_cardiac 13 77 rfl rfl

/-- Claim C3: for every hospital evaluated during an emergency call, the
route stored as its best_route is one of the generated route predictions
and its predicted travel time is minimal among all route candidates
generated for that hospital in that call. -/
theorem C3_theorem (env : ServiceEnv) (loc : ℚ × ℚ) (priority : String) (features : List ℚ)
    (contextual : ContextualFeatures) (hos : List HospitalOption) (rs : List OptimizedResponse)
    (h : build_optimized_responses env loc priority features contextual hos = Except.ok rs) :
    ∀ o ∈ rs, ∃ rps,
      build_route_predictions env loc (o.hospital.lat, o.hospital.lon) priority features contextual o.hospital = Except.ok rps ∧
      o.best_route ∈ rps ∧
      ∀ rp ∈ rps, o.best_route.prediction.travel_time ≤ rp.prediction.travel_time := by
  intro o ho
  obtain ⟨rps, hb, hm⟩ :=
    process_hospitals_mem env loc priority features contextual 0 (hos.take 3) rs h o ho
  have hmem := min_by_total_mem rps o.best_route hm
  refine ⟨rps, hb, hmem, ?_⟩
  intro rp hrp
  have hconst := build_route_predictions_const env loc (o.hospital.lat, o.hospital.lon)
    priority features contextual o.hospital rps hb o.best_route hmem rp hrp
  rw [hconst]

/-- Witness for claim C3 at the rank-1 hospital of the cardiac scenario. -/
theorem C3_witness :
    ∃ rps,
      build_route_predictions env_base (13, 77) (scenario_first.hospital.lat, scenario_first.hospital.lon)
        "high" [1] scenario_contextual scenario_first.hospital = Except.ok rps ∧
      scenario_first.best_route ∈ rps ∧
      ∀ rp ∈ rps, scenario_first.best_route.prediction.travel_time ≤ rp.prediction.travel_time :=
  C3_theorem env_base (13, 77) "high" [1] scenario_contextual scenario_options scenario_responses
    eval_build_lit scenario_first (by simp [scenario_responses])

/-- Claim C4: for every hospital evaluated during an emergency call, every
route candidate of that hospital carries the same prediction dictionary,
because the base duration fed to the predictor comes from the straight-line
emergency-to-hospital travel-time estimate and the same feature vector,
independent of the candidate path. -/
theorem C4_theorem (env : ServiceEnv) (loc hloc : ℚ × ℚ) (priority : String) (features : List ℚ)
    (contextual : ContextualFeatures) (hospital : Hospital) (rps : List RoutePrediction)
    (h : build_route_predictions env loc hloc priority features contextual hospital = Except.ok rps) :
    (∀ rp1 ∈ rps, ∀ rp2 ∈ rps, rp1.prediction = rp2.prediction) ∧
    (∀ rp ∈ rps, ∃ base_duration,
      env.calculate_travel_time loc hloc = Except.ok base_duration ∧
      env.predict_emergency_travel_time features base_duration "ambulance" priority = Except.ok rp.prediction) := by
  refine ⟨build_route_predictions_const env loc hloc priority features contextual hospital rps h, ?_⟩
  intro rp hrp
  obtain ⟨b, hb, hp, _⟩ :=
    build_route_predictions_ok env loc hloc priority features contextual hospital rps h rp hrp
  exact ⟨b, hb, hp⟩

/-- Witness for claim C4 at the two route candidates of the rank-1 hospital
of the cardiac scenario. -/
theorem C4_witness :
    (∀ rp1 ∈ scenario_route_predictions, ∀ rp2 ∈ scenario_route_predictions,
      rp1.prediction = rp2.prediction) ∧
    (∀ rp ∈ scenario_route_predictions, ∃ base_duration,
      env_base.calculate_travel_time (13, 77) (66/5, 77) = Except.ok base_duration ∧
      env_base.predict_emergency_travel_time [1] base_duration "ambulance" "high" = Except.ok rp.prediction) :=
  C4_theorem env_base (13, 77) (66/5, 77) "high" [1] scenario_contextual hospital_far_cardiology
    scenario_route_predictions eval_build_far

/-- Claim C5, counterexample: in a concrete falling-back call the fallback
response identifies no hospital at all — its recommended_hospital key is
absent and its recommendation is the fixed generic guidance string — so it
does not identify the nearest hospital by straight-line distance. -/
theorem C5_counterexample :
    handle_emergency_call env_fail_ranking d_cardiac = Except.ok scenario_fallback ∧
    scenario_fallback.status = some "fallback" ∧
    scenario_fallback.recommended_hospital = none ∧
    scenario_fallback.recommendation =
      some "Dispatch to nearest available hospital using standard routes" :=
  ⟨eval_handle_fail, rfl, rfl, rfl⟩

/-- Claim C5, amended: for every falling-back call whose input carries
coordinates, the fallback response consists of the fixed generic guidance
and metadata only; it names no hospital (the recommended_hospital key is
absent), so no nearest-hospital identification takes place. -/
theorem C5_amended (env : ServiceEnv) (d : EmergencyData) (la lo : ℚ)
    (hla : d.latitude = some la) (hlo : d.longitude = some lo) :
    _generate_fallback_response env d = Except.ok
      { call_id := d.call_id
        timestamp := some env.now_iso
        status := some "fallback"
        message := some "Using standard emergency protocols"
        emergency_location := some { latitude := la, longitude := lo, address := none }
        patient_info := none
        recommended_hospital := none
        optimal_route := none
        alternative_options := none
        current_conditions := none
        eta := none
        performance_metrics := none
        recommendation := some "Dispatch to nearest available hospital using standard routes" } :=
  generate_fallback_of_coords env d la lo hla hlo

/-- Witness for the amended claim C5 at the cardiac call. -/
theorem C5_witness :
    _generate_fallback_response env_base d_cardiac = Except.ok
      { call_id := some "EMG1"
        timestamp := some "2025-01-01T03:00:00"
        status := some "fallback"
        message := some "Using standard emergency protocols"
        emergency_location := some { latitude := 13, longitude := 77, address := none }
        patient_info := none
        recommended_hospital := none
        optimal_route := none
        alternative_options := none
        current_conditions := none
        eta := none
        performance_metrics := none
        recommendation := some "Dispatch to nearest available hospital using standard routes" } :=
  C5_amended env_base d_cardiac 13 77 rfl rfl

/-- Claim C6, counterexample: a successful optimized call returns a
recommendation with no status key at all, so not every recommendation
carries a status flag valued optimized or fallback. -/
theorem C6_counterexample :
    handle_emergency_call env_base d_cardiac = Except.ok scenario_response ∧
    scenario_response.status = none :=
  ⟨eval_handle, rfl⟩

/-- Claim C6, amended: recommendations from the fallback path carry
status fallback, while recommendations from the optimized path carry no
status key at all (no status value optimized exists anywhere). -/
theorem C6_amended :
    (∀ (env : ServiceEnv) (rs : List OptimizedResponse) (d : EmergencyData) (cd : CollectedData)
       (r : Response), _generate_final_recommendation env rs d cd = Except.ok r → r.status = none) ∧
    (∀ (env : ServiceEnv) (d : EmergencyData) (r : Response),
       _generate_fallback_response env d = Except.ok r → r.status = some "fallback") :=
  ⟨generate_final_status_none, fallback_status⟩

/-- Witness for the amended claim C6 at the cardiac scenario, on both the
optimized and the fallback path. -/
theorem C6_witness :
    scenario_response.status = none ∧ scenario_fallback.status = some "fallback" :=
  ⟨C6_amended.1 env_base scenario_responses d_cardiac scenario_collected scenario_response eval_final,
   C6_amended.2 env_fail_ranking d_cardiac scenario_fallback
     (generate_fallback_of_coords env_fail_ranking d_cardiac 13 77 rfl rfl)⟩

/-- Claim C7, counterexample: one GET /api/hospitals request mutates the
shared hospital records in place — before the request no record has a
current_status entry, afterwards every record does, so the hospital records
observed by a later request differ from those before the request. -/
theorem C7_counterexample :
    get_hospitals_state initial_hospitals "2025-01-01T00:00:00" ≠ initial_hospitals ∧
    initial_hospitals.map (fun h => h.current_status.isSome) =
      [false, false, false, false, false] ∧
    (get_hospitals_state initial_hospitals "2025-01-01T00:00:00").map (fun h => h.current_status.isSome) =
      [true, true, true, true, true] := by
  have h2 : initial_hospitals.map (fun h => h.current_status.isSome) =
      [false, false, false, false, false] := by
    simp [initial_hospitals]
  have h3 : (get_hospitals_state initial_hospitals "2025-01-01T00:00:00").map (fun h => h.current_status.isSome) =
      [true, true, true, true, true] := by
    simp [get_hospitals_state, get_hospitals_handler, initial_hospitals, add_current_status,
      hospital_current_status]
  refine ⟨?_, h2, h3⟩
  intro hEq
  rw [hEq, h2] at h3
  simp at h3

/-- Claim C7, amended: the orchestrator environment is read-only per call,
but two pieces of shared service state are written while handling requests:
GET /api/hospitals rewrites every shared hospital record in place by
attaching a current_status entry (all other record fields unchanged), and
every prepare_features call — including the non-fitting one on the
per-request path — reassigns the preprocessor feature_columns, while the
fitted scalers are left untouched when fit_scalers is false. -/
theorem C7_amended :
    (∀ (hospitals : List Hospital) (now_iso : String),
      get_hospitals_state hospitals now_iso = hospitals.map (add_current_status now_iso)) ∧
    (∀ (hospitals : List Hospital) (now_iso : String),
      (get_hospitals_state hospitals now_iso).map strip_current_status =
        hospitals.map strip_current_status) ∧
    (∀ (st : PreprocessorState) (df_columns : List String) (fit_scalers : Bool),
      ((prepare_features st df_columns fit_scalers).1).feature_columns =
        FEATURE_COLUMNS.filter (fun c => df_columns.contains c)) ∧
    (∀ (st : PreprocessorState) (df_columns : List String),
      ((prepare_features st df_columns false).1).scalers_numerical = st.scalers_numerical) := by
  refine ⟨fun hospitals now_iso => rfl, fun hospitals now_iso => ?_, fun st cols fit => ?_, fun st cols => ?_⟩
  · induction hospitals with
    | nil => rfl
    | cons h t ih =>
      simp only [get_hospitals_state, get_hospitals_handler, List.map_cons] at ih ⊢
      exact congrArg (List.cons (strip_current_status h)) ih
  · cases fit <;> simp [prepare_features]
  · simp [prepare_features]

/-- Claim C8, counterexample: the request at (0, 0) lies outside the
configured city bounds, yet the API boundary does not reject it — the
orchestrator is invoked and a 200 success response is returned. -/
theorem C8_counterexample :
    in_city_bounds 0 0 = false ∧
    ∃ r, handle_emergency_api env_base (some d_out_of_bounds) = ApiResponse.success 200 r := by
  constructor
  · simp only [in_city_bounds, CITY_BOUNDS, decide_eq_false_iff_not]
    norm_num
  · obtain ⟨r, hr, _⟩ := handle_ok_of_coords env_base d_out_of_bounds 0 0 rfl rfl
    refine ⟨r, ?_⟩
    have hb : (d_out_of_bounds.latitude.isSome && d_out_of_bounds.longitude.isSome) = true := rfl
    simp [handle_emergency_api, api_wrap, hb, hr]

/-- Claim C8, amended: requests whose body lacks a latitude or longitude
value are rejected at the API boundary with a 400 error response; the
coordinate values themselves are never checked against the configured city
bounds, and any request carrying both fields enters the orchestrator
regardless of where the coordinates lie. -/
theorem C8_amended (env : ServiceEnv) (d : EmergencyData) :
    ((d.latitude.isSome && d.longitude.isSome) = false →
      handle_emergency_api env (some d) =
        ApiResponse.badRequest 400 "Missing required fields" ["latitude", "longitude"]) ∧
    ((d.latitude.isSome && d.longitude.isSome) = true →
      handle_emergency_api env (some d) = api_wrap (handle_emergency_call env d)) := by
  constructor <;> intro h <;> simp [handle_emergency_api, h]

/-- Witness for the amended claim C8: the empty body is rejected with 400,
while the out-of-bounds request is passed to the orchestrator. -/
theorem C8_witness :
    handle_emergency_api env_base (some d_empty) =
      ApiResponse.badRequest 400 "Missing required fields" ["latitude", "longitude"] ∧
    handle_emergency_api env_base (some d_out_of_bounds) =
      api_wrap (handle_emergency_call env_base d_out_of_bounds) :=
  ⟨(C8_amended env_base d_empty).1 rfl, (C8_amended env_base d_out_of_bounds).2 rfl⟩

/-- Claim C9: whenever the weather fetch fails, get_weather_data returns the
documented default value for every weather field instead of raising, and
collect_all_data carries that default snapshot onward. -/
theorem C9_theorem (env : ServiceEnv) (lat lon : ℚ) (e : PyErr)
    (h : env.weather_try lat lon = Except.error e) :
    get_weather_data env lat lon = _get_default_weather env.nowTs ∧
    (get_weather_data env lat lon).temperature = 25 ∧
    (get_weather_data env lat lon).humidity = 60 ∧
    (get_weather_data env lat lon).pressure = 1013 ∧
    (get_weather_data env lat lon).visibility = 10 ∧
    (get_weather_data env lat lon).wind_speed = 3 ∧
    (get_weather_data env lat lon).wind_direction = 0 ∧
    (get_weather_data env lat lon).weather_condition = "Clear" ∧
    (get_weather_data env lat lon).weather_description = "clear sky" ∧
    (get_weather_data env lat lon).is_raining = 0 ∧
    (get_weather_data env lat lon).is_snowing = 0 ∧
    (get_weather_data env lat lon).rain_intensity = 0 ∧
    (get_weather_data env lat lon).timestamp = env.nowTs ∧
    (get_weather_data env lat lon).temp_trend = 0 ∧
    (get_weather_data env lat lon).max_temp_6h = 25 ∧
    (get_weather_data env lat lon).rain_forecast_6h = false ∧
    (collect_all_data env (lat, lon) (lat, lon)).weather = _get_default_weather env.nowTs := by
  have hw : get_weather_data env lat lon = _get_default_weather env.nowTs := by
    simp [get_weather_data, h]
  simp [hw, _get_default_weather, collect_all_data]

/-- Witness for claim C9 at the scenario environment, whose weather request
times out. -/
theorem C9_witness :
    get_weather_data env_base 1 2 = _get_default_weather env_base.nowTs ∧
    (get_weather_data env_base 1 2).temperature = 25 ∧
    (get_weather_data env_base 1 2).humidity = 60 ∧
    (get_weather_data env_base 1 2).pressure = 1013 ∧
    (get_weather_data env_base 1 2).visibility = 10 ∧
    (get_weather_data env_base 1 2).wind_speed = 3 ∧
    (get_weather_data env_base 1 2).wind_direction = 0 ∧
    (get_weather_data env_base 1 2).weather_condition = "Clear" ∧
    (get_weather_data env_base 1 2).weather_description = "clear sky" ∧
    (get_weather_data env_base 1 2).is_raining = 0 ∧
    (get_weather_data env_base 1 2).is_snowing = 0 ∧
    (get_weather_data env_base 1 2).rain_intensity = 0 ∧
    (get_weather_data env_base 1 2).timestamp = env_base.nowTs ∧
    (get_weather_data env_base 1 2).temp_trend = 0 ∧
    (get_weather_data env_base 1 2).max_temp_6h = 25 ∧
    (get_weather_data env_base 1 2).rain_forecast_6h = false ∧
    (collect_all_data env_base (1, 2) (1, 2)).weather = _get_default_weather env_base.nowTs :=
  C9_theorem env_base 1 2 (PyErr.other "weather request timeout") rfl

/-- Claim C10: the per-call route search loop evaluates exactly the first
three ranked hospital options, the optimized responses carry ranks 1, 2,
... in order, and the emitted recommendation lists as alternatives exactly
the evaluated responses after the first, capped at two, in rank order. -/
theorem C10_theorem :
    (∀ (env : ServiceEnv) (loc : ℚ × ℚ) (priority : String) (features : List ℚ)
       (contextual : ContextualFeatures) (hos : List HospitalOption) (rs : List OptimizedResponse),
      build_optimized_responses env loc priority features contextual hos = Except.ok rs →
      rs.map (fun o => o.hospital) = (hos.take 3).map (fun ho => ho.hospital) ∧
      rs.length ≤ 3 ∧
      rs.map (fun o => o.rank) = List.range' 1 rs.length) ∧
    (∀ (env : ServiceEnv) (rs : List OptimizedResponse) (d : EmergencyData) (cd : CollectedData)
       (r : Response), _generate_final_recommendation env rs d cd = Except.ok r →
      ∃ alts, r.alternative_options = some alts ∧ alts.length ≤ 2 ∧
        alts = ((rs.drop 1).take 2).map alternative_option_of) := by
  constructor
  · intro env loc priority features contextual hos rs h
    obtain ⟨h1, h2⟩ := process_hospitals_shape env loc priority features contextual 0 (hos.take 3) rs h
    refine ⟨h1, ?_, by simpa using h2⟩
    have hlen := congrArg List.length h1
    simp only [List.length_map] at hlen
    rw [hlen, List.length_take]
    exact min_le_left _ _
  · intro env rs d cd r h
    cases rs with
    | nil => simp [_generate_final_recommendation] at h
    | cons best rest =>
      obtain ⟨_, halts⟩ := generate_final_fields env best rest d cd r h
      refine ⟨(rest.take 2).map alternative_option_of, halts, ?_, by simp⟩
      rw [List.length_map, List.length_take]
      exact min_le_left _ _

/-- Witness for claim C10 at the cardiac scenario. -/
theorem C10_witness :
    (scenario_responses.map (fun o => o.hospital) =
        (scenario_options.take 3).map (fun ho => ho.hospital) ∧
      scenario_responses.length ≤ 3 ∧
      scenario_responses.map (fun o => o.rank) = List.range' 1 scenario_responses.length) ∧
    (∃ alts, scenario_response.alternative_options = some alts ∧ alts.length ≤ 2 ∧
      alts = ((scenario_responses.drop 1).take 2).map alternative_option_of) :=
  ⟨C10_theorem.1 env_base (13, 77) "high" [1] scenario_contextual scenario_options
      scenario_responses eval_build_lit,
   C10_theorem.2 env_base scenario_responses d_cardiac scenario_collected scenario_response
      eval_final⟩
